import Mathlib

/-!
Verification of the simulation core of ModelacionRutas.py: the fixed-step
Simulation clock, Road segments with derived geometry, and the cyclic
TrafficLight state machines.

Modelling conventions. Python floats are modelled as exact rationals; the
float literals of the source are read as exact decimal rationals. The road
geometry (a Euclidean length obtained through a square root) is modelled
over the reals. Python list indexing, including its acceptance of negative
indices and its IndexError on out-of-range access, is modelled by `pyGet`
returning an `Option`. The float modulo of Python, which for a positive
modulus always lands in `[0, b)`, is modelled by `pymod`.
-/

unseal Rat.mul Rat.add Rat.sub Rat.inv

/-- Color table of the source, line 427: green, yellow, red as RGB triples. -/
def colors : List (Nat × Nat × Nat) := [(0, 255, 0), (255, 255, 0), (255, 0, 0)]

/-- The two fixed five-slot cycle tables of the source, lines 423-425. -/
def cicles : List (List Nat) := [[0, 0, 1, 2, 2], [2, 2, 2, 0, 1]]

/-- The epsilon band literal 0.01666666666674388 of TrafficLight.checkState,
read as an exact decimal rational. -/
def eps : ℚ := 1666666666674388 / 100000000000000000

/-- Python modulo on floats for a positive modulus: a % b = a - b * floor (a / b),
which always lies in [0, b). -/
def pymod (a b : ℚ) : ℚ := a - b * (⌊a / b⌋ : ℚ)

/-- Python list indexing xs[i]: nonnegative indices count from the front,
negative indices from the back, and anything outside [-len, len) raises
IndexError, modelled as none. -/
def pyGet (xs : List α) (i : ℤ) : Option α :=
  if 0 ≤ i then xs.get? i.toNat
  else if 0 ≤ (xs.length : ℤ) + i then xs.get? ((xs.length : ℤ) + i).toNat
  else none

/-- State of a TrafficLight, lines 397-420 of the source. -/
structure TrafficLight where
  position : ℚ × ℚ
  cicle : List Nat
  index : Nat
  stateIndex : Nat
  state : Nat × Nat × Nat
  time : ℚ
  deriving DecidableEq

/-- Body of TrafficLight.init once the cycle table has been fetched:
index 0, stateIndex = cicle[0], state = colors[stateIndex], time 0. -/
def TrafficLight.init (position : ℚ × ℚ) (cicle : List Nat) : TrafficLight :=
  { position := position
    cicle := cicle
    index := 0
    stateIndex := cicle.getD 0 0
    state := colors.getD (cicle.getD 0 0) (0, 0, 0)
    time := 0 }

/-- TrafficLight(position, route): the table fetch cicles[route] uses Python
list indexing, so it succeeds exactly on routes in [-2, 2) and raises
IndexError (none) otherwise. -/
def TrafficLight.make (position : ℚ × ℚ) (route : ℤ) : Option TrafficLight :=
  (pyGet cicles route).map (TrafficLight.init position)

/-- TrafficLight.checkState, lines 407-413: when the stored time is nonzero
and its value modulo 9 lies below the epsilon band, advance the cursor, look
the new slot up in the cycle and the color table, and reset the cursor to 0
right after it reaches 4. The source would raise IndexError on an
out-of-range list access; the model totalizes the lookups with getD, and the
wellformedness theorems show the defaults are never reached. -/
def TrafficLight.checkState (l : TrafficLight) : TrafficLight :=
  if l.time ≠ 0 ∧ pymod l.time 9 < eps then
    let i := l.index + 1
    let si := l.cicle.getD i 0
    { l with
      index := if i = 4 then 0 else i
      stateIndex := si
      state := colors.getD si (0, 0, 0) }
  else l

/-- TrafficLight.getState: a pure read of the stored color. -/
def TrafficLight.getState (l : TrafficLight) : Nat × Nat × Nat := l.state

/-- TrafficLight.update(t): record the time, then run checkState. -/
def TrafficLight.update (l : TrafficLight) (t : ℚ) : TrafficLight :=
  TrafficLight.checkState { l with time := t }

/-- Color that the table lookup assigns to slot i of the cycle of l. -/
def TrafficLight.colorAt (l : TrafficLight) (i : Nat) : Nat × Nat × Nat :=
  colors.getD (l.cicle.getD i 0) (0, 0, 0)

/-- A road segment, lines 378-394 of the source: two endpoints, the vehicle
queue, and the geometry derived once by init_properties. The coordinates are
rationals and the derived geometry lives in the reals. -/
structure Road where
  start : ℚ × ℚ
  end_ : ℚ × ℚ
  length : ℝ
  angle_sin : ℝ
  angle_cos : ℝ
  vehicles : List Unit

/-- Euclidean distance between two points, the scipy call of
Road.init_properties. -/
noncomputable def euclidean (p q : ℚ × ℚ) : ℝ :=
  Real.sqrt (((q.1 : ℝ) - p.1) ^ 2 + ((q.2 : ℝ) - p.2) ^ 2)

/-- Road(start, end) with the body of init_properties inlined: store the
endpoints, start an empty queue, derive length and the direction components.
scipy distance.euclidean returns a numpy float, so when start = end the two
divisions below are 0 / 0.0 on a numpy scalar, which yields NaN with a
RuntimeWarning and raises no exception; the total real division by zero
stands in for that NaN. -/
noncomputable def Road.make (start end_ : ℚ × ℚ) : Road :=
  { start := start
    end_ := end_
    length := euclidean start end_
    angle_sin := ((end_.2 : ℝ) - start.2) / euclidean start end_
    angle_cos := ((end_.1 : ℝ) - start.1) / euclidean start end_
    vehicles := [] }

/-- Road.update(dt), lines 393-394: reads the queue length into a local and
discards it, a no-op on the state. -/
def Road.update (r : Road) (dt : ℚ) : Road := r

/-- Simulation state, lines 319-376: clock, frame counter, fixed step and the
two owned entity lists. -/
structure Simulation where
  t : ℚ
  frame_count : Nat
  dt : ℚ
  roads : List Road
  lights : List TrafficLight

/-- set_default_config, lines 328-333: t = 0, frame_count = 0, dt = 1/300,
empty roads and lights. -/
def Simulation.default : Simulation :=
  { t := 0, frame_count := 0, dt := 1/300, roads := [], lights := [] }

/-- Simulation.update: the second definition in the class body, lines
361-371, which overrides the first one at lines 346-354. Every road updates
with dt, every light updates with the pre-increment time, then the clock and
the frame counter advance. -/
def Simulation.update (s : Simulation) : Simulation :=
  { s with
    roads := s.roads.map (fun r => r.update s.dt)
    lights := s.lights.map (fun l => l.update s.t)
    t := s.t + s.dt
    frame_count := s.frame_count + 1 }

/-- Simulation.update iterated n times, the body of the run loop. -/
def Simulation.runN : Nat → Simulation → Simulation
  | 0, s => s
  | n + 1, s => Simulation.runN n s.update

/-- Simulation.run(steps), lines 374-376: the loop over range(steps), which
is empty whenever steps is zero or negative. -/
def Simulation.run (s : Simulation) (steps : ℤ) : Simulation :=
  Simulation.runN steps.toNat s

/-- Sample light: the route 0 light of the source network, position
(400, 300), cycle table [0, 0, 1, 2, 2]. -/
def light0 : TrafficLight := TrafficLight.init (400, 300) (cicles.getD 0 [])

/-- The route 0 light updated at times 9, 18, ..., 9 * k: the state reached
after k updates, each landing exactly on a multiple of the 9-unit period. -/
def lightTrace : Nat → TrafficLight
  | 0 => light0
  | k + 1 => (lightTrace k).update ((9 * (k + 1) : ℕ) : ℚ)

/-- Sample simulation: default configuration with the route 0 light. -/
def sim0 : Simulation :=
  { t := 0, frame_count := 0, dt := 1/300, roads := [], lights := [light0] }

/-- Wellformedness of a light reachable from a valid construction: cursor
strictly below 4, a five-slot cycle with entries inside the color table, and
a stored state index inside the color table. -/
def TrafficLight.WF (l : TrafficLight) : Prop :=
  l.index < 4 ∧ l.cicle.length = 5 ∧ (∀ x ∈ l.cicle, x < 3) ∧ l.stateIndex < 3

instance : DecidablePred TrafficLight.WF := fun l => by
  unfold TrafficLight.WF
  infer_instance

/-! ## Helper lemmas -/

/-- Behaviour of update when the band test succeeds: the cursor advances,
the new slot is looked up, and the cursor wraps to 0 right after landing
on 4. -/
theorem TrafficLight.update_fires (l : TrafficLight) (t : ℚ)
    (h1 : t ≠ 0) (h2 : pymod t 9 < eps) :
    l.update t =
      { l with
        time := t
        index := if l.index + 1 = 4 then 0 else l.index + 1
        stateIndex := l.cicle.getD (l.index + 1) 0
        state := colors.getD (l.cicle.getD (l.index + 1) 0) (0, 0, 0) } := by
  unfold TrafficLight.update TrafficLight.checkState
  simp [h1, h2]

/-- Behaviour of update when the band test fails: only the time is
recorded. -/
theorem TrafficLight.update_skips (l : TrafficLight) (t : ℚ)
    (h : ¬(t ≠ 0 ∧ pymod t 9 < eps)) :
    l.update t = { l with time := t } := by
  unfold TrafficLight.update TrafficLight.checkState
  simp only []
  rw [if_neg h]

/-- Exact multiples of 9 always land in the epsilon band: their value
modulo 9 is 0. -/
theorem pymod_nine_mul (m : Nat) : pymod ((9 * m : ℕ) : ℚ) 9 = 0 := by
  unfold pymod
  have h9 : ((9 * m : ℕ) : ℚ) / 9 = (m : ℚ) := by
    rw [div_eq_iff (by norm_num)]
    push_cast
    ring
  rw [h9, Int.floor_natCast]
  push_cast
  ring

/-- Every step of the trace fires: the time is a nonzero multiple of 9. -/
theorem lightTrace_succ (k : Nat) :
    lightTrace (k + 1) =
      { lightTrace k with
        time := ((9 * (k + 1) : ℕ) : ℚ)
        index := if (lightTrace k).index + 1 = 4 then 0 else (lightTrace k).index + 1
        stateIndex := (lightTrace k).cicle.getD ((lightTrace k).index + 1) 0
        state := colors.getD ((lightTrace k).cicle.getD ((lightTrace k).index + 1) 0)
          (0, 0, 0) } := by
  show (lightTrace k).update _ = _
  exact TrafficLight.update_fires _ _
    (Nat.cast_ne_zero.mpr (by omega))
    (by rw [pymod_nine_mul (k + 1)]; decide)

/-- A successful Python list access returns an element of the list. -/
theorem pyGet_mem {α : Type} {xs : List α} {i : ℤ} {x : α}
    (h : pyGet xs i = some x) : x ∈ xs := by
  unfold pyGet at h
  split_ifs at h <;> exact List.get?_mem h

/-- An in-range getD returns an element of the list. -/
theorem getD_mem_of_lt {α : Type} {xs : List α} {i : Nat} (d : α)
    (h : i < xs.length) : xs.getD i d ∈ xs := by
  rw [List.getD_eq_get?, List.get?_eq_get h, Option.getD_some]
  exact List.get_mem xs i h

/-- Unfolding of the run loop from the outside. -/
theorem Simulation.runN_succ (n : Nat) (s : Simulation) :
    Simulation.runN (n + 1) s = (Simulation.runN n s).update := by
  induction n generalizing s with
  | zero => rfl
  | succ k ih => exact ih s.update

/-- The step size is never changed by stepping. -/
theorem Simulation.runN_dt (n : Nat) (s : Simulation) :
    (Simulation.runN n s).dt = s.dt := by
  induction n generalizing s with
  | zero => rfl
  | succ k ih => exact ih s.update

/-- The clock after n steps: start time plus n times the step. -/
theorem Simulation.runN_t (n : Nat) (s : Simulation) :
    (Simulation.runN n s).t = s.t + (n : ℚ) * s.dt := by
  induction n generalizing s with
  | zero => simp [Simulation.runN]
  | succ k ih =>
    have := ih s.update
    unfold Simulation.runN
    rw [this]
    show s.t + s.dt + (k : ℚ) * s.dt = _
    push_cast
    ring

/-- The frame counter after n steps: start count plus n. -/
theorem Simulation.runN_frame (n : Nat) (s : Simulation) :
    (Simulation.runN n s).frame_count = s.frame_count + n := by
  induction n generalizing s with
  | zero => rfl
  | succ k ih =>
    have := ih s.update
    unfold Simulation.runN
    rw [this]
    show s.frame_count + 1 + k = _
    omega

/-- Wellformedness is preserved by a light update. -/
theorem TrafficLight.WF_update (l : TrafficLight) (t : ℚ) (h : l.WF) :
    (l.update t).WF := by
  obtain ⟨hi, hlen, hmem, hsi⟩ := h
  by_cases hf : t ≠ 0 ∧ pymod t 9 < eps
  · rw [TrafficLight.update_fires l t hf.1 hf.2]
    refine ⟨?_, hlen, hmem, ?_⟩
    · dsimp only
      split <;> omega
    · dsimp only
      exact hmem _ (getD_mem_of_lt 0 (by omega))
  · rw [TrafficLight.update_skips l t hf]
    exact ⟨hi, hlen, hmem, hsi⟩

/-- Every light accepted by the constructor is wellformed. -/
theorem TrafficLight.WF_make (p : ℚ × ℚ) (r : ℤ) (l : TrafficLight)
    (h : TrafficLight.make p r = some l) : l.WF := by
  unfold TrafficLight.make at h
  obtain ⟨c, hc, hl⟩ := Option.map_eq_some'.mp h
  have hmem := pyGet_mem hc
  subst hl
  simp only [cicles, List.mem_cons, List.mem_singleton, List.not_mem_nil, or_false] at hmem
  rcases hmem with h1 | h1 <;> subst h1 <;>
    refine ⟨?_, ?_, ?_, ?_⟩ <;> dsimp only [TrafficLight.init] <;> decide

/-- Wellformedness of every light is preserved by any number of steps. -/
theorem Simulation.runN_lights_WF (s : Simulation) (n : Nat)
    (h : ∀ l ∈ s.lights, l.WF) :
    ∀ l ∈ (Simulation.runN n s).lights, l.WF := by
  induction n generalizing s with
  | zero => exact h
  | succ k ih =>
    refine ih s.update (fun l hl => ?_)
    simp only [Simulation.update, List.mem_map] at hl
    obtain ⟨l0, hl0, rfl⟩ := hl
    exact TrafficLight.WF_update _ _ (h _ hl0)

/-- Full characterization of the route 0 trace: the cycle table never
changes, the cursor equals the number of transitions modulo 4, and the
displayed slot after transition k + 1 is slot (k mod 4) + 1; slot 0 is
displayed only by the initial state. -/
theorem lightTrace_spec (k : Nat) :
    (lightTrace k).cicle = [0, 0, 1, 2, 2] ∧
    (lightTrace k).index = k % 4 ∧
    (lightTrace (k + 1)).stateIndex = [0, 0, 1, 2, 2].getD (k % 4 + 1) 0 ∧
    (lightTrace (k + 1)).state =
      colors.getD ([0, 0, 1, 2, 2].getD (k % 4 + 1) 0) (0, 0, 0) := by
  induction k with
  | zero => decide
  | succ n ih =>
    obtain ⟨hc, hi, _, _⟩ := ih
    have hstep := lightTrace_succ n
    have hc1 : (lightTrace (n + 1)).cicle = [0, 0, 1, 2, 2] := by
      rw [hstep]; exact hc
    have hi1 : (lightTrace (n + 1)).index = (n + 1) % 4 := by
      rw [hstep]
      dsimp only
      rw [hi]
      by_cases he : n % 4 + 1 = 4
      · rw [if_pos he]; omega
      · rw [if_neg he]; omega
    have hstep1 := lightTrace_succ (n + 1)
    refine ⟨hc1, hi1, ?_, ?_⟩
    · rw [hstep1]
      dsimp only
      rw [hc1, hi1]
    · rw [hstep1]
      dsimp only
      rw [hc1, hi1]

/-! ## Claim theorems -/

/-- Claim C1 counterexample: after four transitions (updates at times 9, 18,
27, 36) the route 0 light stores the red color of slot 4 while its cursor
has been reset to 0, whose table lookup is green: the stored color and the
lookup of cycle at the cursor are desynchronized. -/
theorem c1_counterexample :
    (lightTrace 4).index = 0 ∧
    (lightTrace 4).state = (255, 0, 0) ∧
    (lightTrace 4).colorAt (lightTrace 4).index = (0, 255, 0) ∧
    (lightTrace 4).state ≠ (lightTrace 4).colorAt (lightTrace 4).index := by
  decide

/-- Claim C1 amended: the stored color equals the table lookup of the cycle
at the cursor after construction and after every update, except an update
whose transition wraps the cursor (the cursor reaches 4 and is reset to 0
in the same call): there the light stores the color of slot 4 while its
cursor reads 0. -/
theorem c1_amended (l : TrafficLight) (t : ℚ) (h : l.state = l.colorAt l.index) :
    (∀ p c, (TrafficLight.init p c).state =
      (TrafficLight.init p c).colorAt (TrafficLight.init p c).index) ∧
    (if t ≠ 0 ∧ pymod t 9 < eps ∧ l.index + 1 = 4
      then (l.update t).index = 0 ∧ (l.update t).state = l.colorAt 4
      else (l.update t).state = (l.update t).colorAt (l.update t).index) := by
  refine ⟨fun p c => rfl, ?_⟩
  split_ifs with hc
  · obtain ⟨h1, h2, h4⟩ := hc
    rw [TrafficLight.update_fires l t h1 h2]
    unfold TrafficLight.colorAt
    simp [h4]
  · by_cases hf : t ≠ 0 ∧ pymod t 9 < eps
    · have h4 : l.index + 1 ≠ 4 := fun hh => hc ⟨hf.1, hf.2, hh⟩
      rw [TrafficLight.update_fires l t hf.1 hf.2]
      unfold TrafficLight.colorAt
      simp [h4]
    · rw [TrafficLight.update_skips l t hf]
      unfold TrafficLight.colorAt at h ⊢
      exact h

/-- Witness for C1 on the route 0 light at time 9: a non-wrapping update
preserves the synchronization invariant. -/
theorem c1_witness :
    light0.state = light0.colorAt light0.index ∧
    ((∀ p c, (TrafficLight.init p c).state =
      (TrafficLight.init p c).colorAt (TrafficLight.init p c).index) ∧
    (if (9 : ℚ) ≠ 0 ∧ pymod 9 9 < eps ∧ light0.index + 1 = 4
      then (light0.update 9).index = 0 ∧ (light0.update 9).state = light0.colorAt 4
      else (light0.update 9).state =
        (light0.update 9).colorAt (light0.update 9).index)) :=
  ⟨by decide, c1_amended light0 9 (by decide)⟩

/-- Claim C2 counterexample: a fixed repeating five-phase order predicts
that the sixth transition displays the color of slot 6 mod 5 = 1 of the
route 0 table, green; the trace actually shows yellow there, because slot 0
is skipped after the first wrap. -/
theorem c2_counterexample :
    (lightTrace 6).state = (255, 255, 0) ∧
    colors.getD ((cicles.getD 0 []).getD (6 % 5) 0) (0, 0, 0) = (0, 255, 0) ∧
    (lightTrace 6).state ≠ colors.getD ((cicles.getD 0 []).getD (6 % 5) 0) (0, 0, 0) := by
  decide

/-- Claim C2 amended: updating the route 0 light at successive multiples of
9 visits green, green, yellow, red, red on the first pass, and afterwards
repeats the four-phase block green, yellow, red, red: the cursor equals the
transition count modulo 4 (so it never leaves the 0..3 range and never
moves backward except by wrapping), the displayed color after transition
k + 1 is the table color of slot (k mod 4) + 1, and the displayed colors
are periodic with period 4 from the first transition on, the duplicated
leading green being displayed only by the initial state. -/
theorem c2_amended (k : Nat) :
    (lightTrace k).index = k % 4 ∧ (lightTrace k).index < 4 ∧
    (lightTrace (k + 1)).state =
      colors.getD ([0, 0, 1, 2, 2].getD (k % 4 + 1) 0) (0, 0, 0) ∧
    (lightTrace (k + 5)).state = (lightTrace (k + 1)).state ∧
    (lightTrace 0).state = (0, 255, 0) := by
  obtain ⟨_, hi, _, hst⟩ := lightTrace_spec k
  obtain ⟨_, _, _, hst4⟩ := lightTrace_spec (k + 4)
  have hmod : (k + 4) % 4 = k % 4 := Nat.add_mod_right k 4
  refine ⟨hi, by omega, hst, ?_, by decide⟩
  have h45 : k + 4 + 1 = k + 5 := rfl
  rw [← h45, hst4, hmod, hst]

/-- Claim C3 counterexample: constructing a light with route -1 is not
rejected: Python negative indexing accepts it silently and selects cycle
table 1. -/
theorem c3_counterexample :
    (TrafficLight.make (300, 290) (-1)).isSome = true ∧
    Option.map TrafficLight.cicle (TrafficLight.make (300, 290) (-1)) =
      some [2, 2, 2, 0, 1] := by
  decide

/-- Claim C3 amended: construction is rejected (IndexError) exactly for
routes outside the interval [-2, 2); the negative routes -1 and -2 are
accepted silently through Python negative indexing and alias cycle tables 1
and 0 respectively. -/
theorem c3_amended (position : ℚ × ℚ) (route : ℤ) :
    ((TrafficLight.make position route).isSome = true ↔ -2 ≤ route ∧ route < 2) ∧
    TrafficLight.make position (-1) =
      some (TrafficLight.init position [2, 2, 2, 0, 1]) ∧
    TrafficLight.make position (-2) =
      some (TrafficLight.init position [0, 0, 1, 2, 2]) := by
  refine ⟨?_, rfl, rfl⟩
  unfold TrafficLight.make pyGet
  rw [Option.isSome_map']
  have hlen : cicles.length = 2 := rfl
  split_ifs with h1 h2
  · constructor
    · intro hs
      rcases Option.isSome_iff_exists.mp hs with ⟨c, hc⟩
      rcases List.get?_eq_some.mp hc with ⟨hb, _⟩
      rw [hlen] at hb
      omega
    · intro hr
      have hb : route.toNat < cicles.length := by rw [hlen]; omega
      rw [List.get?_eq_get hb]
      rfl
  · rw [hlen] at h2
    constructor
    · intro _
      omega
    · intro _
      have hb : ((cicles.length : ℤ) + route).toNat < cicles.length := by
        rw [hlen]; omega
      rw [List.get?_eq_get hb]
      rfl
  · rw [hlen] at h2
    constructor
    · intro hf
      exact absurd hf (by decide)
    · intro hr
      exfalso
      omega

/-- Claim C4: from a fresh instance (time 0, frame count 0), run(n) with
n ≥ 0 yields frame_count = n and t = n * dt exactly over the rationals;
the invariant t = frame_count * dt is preserved by every step, and the
clock never decreases when the step size is nonnegative. -/
theorem c4_clock_invariant (s : Simulation) (n : ℤ) (hn : 0 ≤ n)
    (h0 : s.t = 0) (hf : s.frame_count = 0) :
    ((s.run n).frame_count : ℤ) = n ∧ (s.run n).t = (n : ℚ) * s.dt ∧
    (∀ s2 : Simulation, s2.t = (s2.frame_count : ℚ) * s2.dt →
      s2.update.t = (s2.update.frame_count : ℚ) * s2.update.dt) ∧
    (0 ≤ s.dt → ∀ m : Nat, (Simulation.runN m s).t ≤ (Simulation.runN (m + 1) s).t) := by
  have htn : ((n.toNat : ℤ)) = n := Int.toNat_of_nonneg hn
  refine ⟨?_, ?_, ?_, ?_⟩
  · unfold Simulation.run
    rw [Simulation.runN_frame, hf]
    omega
  · unfold Simulation.run
    rw [Simulation.runN_t, h0, zero_add]
    congr 1
    exact_mod_cast htn
  · intro s2 h2
    show s2.t + s2.dt = _
    rw [h2]
    show _ = ((s2.frame_count + 1 : ℕ) : ℚ) * s2.dt
    push_cast
    ring
  · intro hdt m
    rw [Simulation.runN_succ]
    show _ ≤ (Simulation.runN m s).t + (Simulation.runN m s).dt
    rw [Simulation.runN_dt]
    linarith

/-- Witness for C4 on the sample simulation at n = 2. -/
theorem c4_witness :
    (0 : ℤ) ≤ 2 ∧ sim0.t = 0 ∧ sim0.frame_count = 0 ∧
    (((sim0.run 2).frame_count : ℤ) = 2 ∧
      (sim0.run 2).t = ((2 : ℤ) : ℚ) * sim0.dt ∧
      (∀ s2 : Simulation, s2.t = (s2.frame_count : ℚ) * s2.dt →
        s2.update.t = (s2.update.frame_count : ℚ) * s2.update.dt) ∧
      (0 ≤ sim0.dt → ∀ m : Nat,
        (Simulation.runN m sim0).t ≤ (Simulation.runN (m + 1) sim0).t)) :=
  ⟨by decide, rfl, rfl, c4_clock_invariant sim0 2 (by decide) rfl rfl⟩

/-- Claim C5: the step n + 1 from a fresh instance maps every road through
update(dt) in insertion order, maps every light through update at the
pre-increment time n * dt (the completed-step count times the step size),
and only then advances the clock and the frame counter. -/
theorem c5_step_order (s : Simulation) (n : Nat) (h0 : s.t = 0)
    (hf : s.frame_count = 0) :
    Simulation.runN (n + 1) s =
      { t := (n : ℚ) * s.dt + s.dt
        frame_count := n + 1
        dt := s.dt
        roads := (Simulation.runN n s).roads.map (fun r => r.update s.dt)
        lights := (Simulation.runN n s).lights.map
          (fun l => l.update ((n : ℚ) * s.dt)) } := by
  rw [Simulation.runN_succ]
  show Simulation.update _ = _
  unfold Simulation.update
  simp only [Simulation.runN_t, Simulation.runN_dt, Simulation.runN_frame,
    h0, hf, zero_add, Nat.zero_add]

/-- Witness for C5 on the sample simulation at n = 1. -/
theorem c5_witness :
    sim0.t = 0 ∧ sim0.frame_count = 0 ∧
    Simulation.runN (1 + 1) sim0 =
      { t := ((1 : ℕ) : ℚ) * sim0.dt + sim0.dt
        frame_count := 1 + 1
        dt := sim0.dt
        roads := (Simulation.runN 1 sim0).roads.map (fun r => r.update sim0.dt)
        lights := (Simulation.runN 1 sim0).lights.map
          (fun l => l.update (((1 : ℕ) : ℚ) * sim0.dt)) } :=
  ⟨rfl, rfl, c5_step_order sim0 1 rfl rfl⟩

/-- Claim C6: an update advances the phase cursor exactly when the passed
time is nonzero and its value modulo 9 lies strictly below the epsilon band
bound; in particular an update at time 0 never changes cursor, state index
or color. -/
theorem c6_band (l : TrafficLight) (t : ℚ) :
    (((l.update t).index ≠ l.index) ↔ (t ≠ 0 ∧ pymod t 9 < eps)) ∧
    (l.update 0).index = l.index ∧ (l.update 0).stateIndex = l.stateIndex ∧
    (l.update 0).state = l.state := by
  have hz : l.update 0 = { l with time := 0 } :=
    TrafficLight.update_skips l 0 (by simp)
  refine ⟨⟨?_, ?_⟩, by rw [hz], by rw [hz], by rw [hz]⟩
  · intro hne
    by_contra hcon
    rw [TrafficLight.update_skips l t hcon] at hne
    exact hne rfl
  · rintro ⟨h1, h2⟩
    rw [TrafficLight.update_fires l t h1 h2]
    dsimp only
    by_cases h4 : l.index + 1 = 4
    · rw [if_pos h4]; omega
    · rw [if_neg h4]; omega

/-- Claim C7 counterexample: the Road built from two identical points is
produced silently (scipy returns a numpy float, so the zero-length division
yields NaN with only a warning) and its stored length is 0, refuting that a
length 0 segment is never silently accepted. -/
theorem c7_counterexample :
    (Road.make (0, 0) (0, 0)).length = 0 ∧
    (Road.make (0, 0) (0, 0)).start = (0, 0) ∧
    (Road.make (0, 0) (0, 0)).end_ = (0, 0) := by
  refine ⟨?_, rfl, rfl⟩
  show euclidean (0, 0) (0, 0) = 0
  unfold euclidean
  norm_num

/-- Claim C7 amended: constructing a Road from two identical points is not
rejected: construction always returns a Road carrying the given endpoints,
and when the endpoints coincide its derived length is 0 (with the direction
components left as the NaN junk of a division by zero). -/
theorem c7_amended (p : ℚ × ℚ) :
    (Road.make p p).length = 0 ∧ (Road.make p p).start = p ∧
    (Road.make p p).end_ = p := by
  refine ⟨?_, rfl, rfl⟩
  show euclidean p p = 0
  unfold euclidean
  simp

/-- Claim C8: for distinct endpoints the derived direction is a unit vector
(cosine squared plus sine squared equals one exactly over the reals), the
derived length is the Euclidean distance of the endpoints, and a road
update never mutates the road. -/
theorem c8_geometry (s e : ℚ × ℚ) (h : s ≠ e) :
    (Road.make s e).angle_cos ^ 2 + (Road.make s e).angle_sin ^ 2 = 1 ∧
    (Road.make s e).length = euclidean s e ∧
    (∀ dt : ℚ, (Road.make s e).update dt = Road.make s e) := by
  refine ⟨?_, rfl, fun dt => rfl⟩
  have hne : (e.1 : ℝ) - s.1 ≠ 0 ∨ (e.2 : ℝ) - s.2 ≠ 0 := by
    by_contra hcon
    push_neg at hcon
    obtain ⟨h1, h2⟩ := hcon
    apply h
    have e1 : (e.1 : ℝ) = s.1 := sub_eq_zero.mp h1
    have e2 : (e.2 : ℝ) = s.2 := sub_eq_zero.mp h2
    have q1 : s.1 = e.1 := by exact_mod_cast e1.symm
    have q2 : s.2 = e.2 := by exact_mod_cast e2.symm
    exact Prod.ext_iff.mpr ⟨q1, q2⟩
  have hd : 0 < ((e.1 : ℝ) - s.1) ^ 2 + ((e.2 : ℝ) - s.2) ^ 2 := by
    rcases hne with h1 | h1
    · have hb := sq_nonneg ((e.2 : ℝ) - s.2)
      have ha : 0 < ((e.1 : ℝ) - s.1) ^ 2 := by positivity
      linarith
    · have hb := sq_nonneg ((e.1 : ℝ) - s.1)
      have ha : 0 < ((e.2 : ℝ) - s.2) ^ 2 := by positivity
      linarith
  have hsq : euclidean s e ^ 2 = ((e.1 : ℝ) - s.1) ^ 2 + ((e.2 : ℝ) - s.2) ^ 2 :=
    Real.sq_sqrt hd.le
  show (((e.1 : ℝ) - s.1) / euclidean s e) ^ 2 +
    (((e.2 : ℝ) - s.2) / euclidean s e) ^ 2 = 1
  rw [div_pow, div_pow, div_add_div_same, ← hsq]
  exact div_self (by rw [hsq]; exact ne_of_gt hd)

/-- Witness for C8 on the road from (0, 0) to (10, 0). -/
theorem c8_witness :
    ((0, 0) : ℚ × ℚ) ≠ ((10, 0) : ℚ × ℚ) ∧
    ((Road.make (0, 0) (10, 0)).angle_cos ^ 2 +
      (Road.make (0, 0) (10, 0)).angle_sin ^ 2 = 1 ∧
    (Road.make (0, 0) (10, 0)).length = euclidean (0, 0) (10, 0) ∧
    (∀ dt : ℚ, (Road.make (0, 0) (10, 0)).update dt = Road.make (0, 0) (10, 0))) :=
  ⟨by decide, c8_geometry (0, 0) (10, 0) (by decide)⟩

/-- Claim C9: stepping is total after a valid setup: when every light of a
simulation is wellformed, after any number of steps every light is still
wellformed and all its list lookups (the cycle at the cursor and at the
advanced cursor, the color table at the state index) are strictly in
bounds; moreover every light the constructor accepts is wellformed. -/
theorem c9_totality (s : Simulation) (n : Nat) (h : ∀ l ∈ s.lights, l.WF) :
    (∀ l ∈ (Simulation.runN n s).lights,
      l.WF ∧ l.index < l.cicle.length ∧ l.index + 1 < l.cicle.length ∧
        l.stateIndex < colors.length ∧ l.cicle.getD l.index 0 < colors.length) ∧
    (∀ p r l0, TrafficLight.make p r = some l0 → l0.WF) := by
  have hcl : colors.length = 3 := rfl
  refine ⟨fun l hl => ?_, TrafficLight.WF_make⟩
  obtain ⟨hi, hlen, hmem, hsi⟩ := Simulation.runN_lights_WF s n h l hl
  refine ⟨⟨hi, hlen, hmem, hsi⟩, by omega, by omega, by omega, ?_⟩
  rw [hcl]
  exact hmem _ (getD_mem_of_lt 0 (by omega))

/-- Witness for C9 on the sample simulation after one step. -/
theorem c9_witness :
    (∀ l ∈ sim0.lights, l.WF) ∧
    ((∀ l ∈ (Simulation.runN 1 sim0).lights,
      l.WF ∧ l.index < l.cicle.length ∧ l.index + 1 < l.cicle.length ∧
        l.stateIndex < colors.length ∧ l.cicle.getD l.index 0 < colors.length) ∧
    (∀ p r l0, TrafficLight.make p r = some l0 → l0.WF)) :=
  ⟨by decide, c9_totality sim0 1 (by decide)⟩

/-- Claim C10: run with a nonpositive step count returns without error and
changes nothing at all: the underlying range loop is empty, so the whole
simulation value (clock, frame counter, step size, roads and lights) is
returned intact. -/
theorem c10_run_nonpos (s : Simulation) (steps : ℤ) (h : steps ≤ 0) :
    s.run steps = s := by
  unfold Simulation.run
  rw [Int.toNat_of_nonpos h]
  rfl

/-- Witness for C10 at steps = -3 on the sample simulation. -/
theorem c10_witness : (-3 : ℤ) ≤ 0 ∧ sim0.run (-3) = sim0 :=
  ⟨by decide, c10_run_nonpos sim0 (-3) (by decide)⟩
